import Mathlib

/-!
Verification of the food-ingredient scraper's extraction, crawl and job
pipeline.  Python string operations are modelled at the `List Char` level so
that every definition is executable by the kernel.  Each definition carries a
reference to the source location it embeds.
-/

set_option maxRecDepth 10000
set_option linter.unusedVariables false

/-! ## Python string primitives -/

/-- Python whitespace for `str.strip` and the regex class `\s` (ASCII part:
space, tab, newline, carriage return, vertical tab, form feed).  Unicode
whitespace beyond ASCII is not modelled. -/
def isPySpace (c : Char) : Bool :=
  c.toNat = 32 || c.toNat = 9 || c.toNat = 10 || c.toNat = 13 ||
  c.toNat = 11 || c.toNat = 12

/-- ASCII digit test used by Python `int` parsing. -/
def pyIsDigit (c : Char) : Bool :=
  48 ≤ c.toNat && c.toNat ≤ 57

/-- ASCII uppercase letter test, used to state that parsed ingredient text
has been lowercased. -/
def isUpperAscii (c : Char) : Bool :=
  65 ≤ c.toNat && c.toNat ≤ 90

/-- Drop trailing characters satisfying `isPySpace`. -/
def dropEndWs (l : List Char) : List Char :=
  (l.reverse.dropWhile isPySpace).reverse

/-- Python `str.strip()`: remove leading and trailing whitespace. -/
def pyStrip (l : List Char) : List Char :=
  dropEndWs (l.dropWhile isPySpace)

/-- Python `str.lower()` on a character (ASCII case mapping, matching the
source's use on ASCII ingredient text). -/
def pyToLower (c : Char) : Char := Char.toLower c

/-- Split a character list at every character satisfying `p`, keeping empty
segments, as Python `re.split` on a character class does. -/
def splitOnPred (p : Char → Bool) : List Char → List (List Char)
  | [] => [[]]
  | c :: cs =>
    if p c then [] :: splitOnPred p cs
    else
      match splitOnPred p cs with
      | part :: parts => (c :: part) :: parts
      | [] => [[c]]

/-- Separator class `[,;]` of `BaseScraper.parse_ingredients`
(src/app/scrapers/base.py line 84). -/
def isSep (c : Char) : Bool := c = ',' || c = ';'

/-- Worker for `removePat`, structurally recursive on a fuel argument that
dominates the list length (each step removes at least one character, so
`l.length` fuel always suffices and the fuel-exhausted arm is unreachable). -/
def removePatGo (pat : List Char) : Nat → List Char → List Char
  | _, [] => []
  | 0, l => l
  | fuel + 1, c :: cs =>
    if pat ≠ [] ∧ pat.isPrefixOf (c :: cs) then
      removePatGo pat fuel ((c :: cs).drop pat.length)
    else
      c :: removePatGo pat fuel cs

/-- Python `str.replace(pat, "")`: delete every non-overlapping occurrence of
`pat`, scanning left to right.  For an empty pattern the input is returned
unchanged (the source never passes an empty pattern). -/
def removePat (pat l : List Char) : List Char :=
  removePatGo pat l.length l

/-- Python `in` on strings: does `pat` occur as a contiguous substring of
`hay`? -/
def listContains (pat : List Char) : List Char → Bool
  | [] => pat.isPrefixOf []
  | c :: cs => pat.isPrefixOf (c :: cs) || listContains pat cs

/-- Python `in` on strings: substring containment. -/
def pyContains (hay pat : List Char) : Bool :=
  listContains pat hay

/-- Python `int(s)` on an already-extracted text: strips whitespace, accepts
an optional sign followed by one or more ASCII digits (numeric underscores
are not modelled). -/
def digitsToNat : List Char → Option Nat
  | [] => none
  | ds =>
    if ds.all pyIsDigit then
      some (ds.foldl (fun a c => a * 10 + (c.toNat - 48)) 0)
    else none

/-- Python `int` applied to a string, returning `none` on `ValueError`. -/
def pyInt (l : List Char) : Option Int :=
  match pyStrip l with
  | '+' :: rest => (digitsToNat rest).map Int.ofNat
  | '-' :: rest => (digitsToNat rest).map (fun n => -(n : Int))
  | rest => (digitsToNat rest).map Int.ofNat

/-! ## Field parser: `BaseScraper.parse_ingredients`
(src/app/scrapers/base.py lines 77-93) -/

/-- Regex `^contains\s+` removal: the prefix `contains` must be followed by at
least one whitespace character; the greedy `\s+` consumes the whole leading
whitespace run. -/
def subContains (l : List Char) : List Char :=
  if ("contains".data).isPrefixOf l ∧ (l.drop 8).head?.any isPySpace then
    (l.drop 8).dropWhile isPySpace
  else l

/-- Regex `^ingredients:\s*` removal: zero or more whitespace characters after
the literal prefix are consumed. -/
def subIngredients (l : List Char) : List Char :=
  if ("ingredients:".data).isPrefixOf l then
    (l.drop 12).dropWhile isPySpace
  else l

/-- The local variable `ingredient = part.strip().lower()` of the
`parse_ingredients` loop (src/app/scrapers/base.py line 86). -/
def cleanedToken (part : List Char) : List Char :=
  (pyStrip part).map pyToLower

/-- The per-token body of the `parse_ingredients` loop: strip and lowercase;
skip the token if it is then empty; otherwise remove the two leading
prefixes and keep the result (even when the removal empties it). -/
def ingredientToken (part : List Char) : Option (List Char) :=
  if cleanedToken part = [] then none
  else some (subIngredients (subContains (cleanedToken part)))

/-- `BaseScraper.parse_ingredients` (src/app/scrapers/base.py lines 77-93):
falsy input gives `[]`; otherwise split on `[,;]`, clean each token, drop
tokens that are empty after strip, and collect the rest in order. -/
def parse_ingredients (text : String) : List String :=
  if text = "" then []
  else ((splitOnPred isSep text.data).filterMap ingredientToken).map
    fun l => String.mk l

/-! ## Product name extraction: `TraderJoesScraper._extract_product_name`
(src/app/scrapers/traderjoes.py lines 124-162) -/

/-- The brand string "Trader Joe" + apostrophe + "s", built from character
codes because of the embedded apostrophe (codepoint 39). -/
def tjBrand : String :=
  String.mk ['T', 'r', 'a', 'd', 'e', 'r', ' ', 'J', 'o', 'e',
    Char.ofNat 39, 's']

/-- The ordered name selector list of `_extract_product_name`
(src/app/scrapers/traderjoes.py lines 128-137). -/
def tjNameSelectors : List String :=
  [ "h1[data-testid=\"product-name\"]",
    "h1.ProductDetails__title",
    "h1.ProductDetails__name",
    "h1[class*=\"ProductDetails\"]",
    "h1[class*=\"product-name\"]",
    "h1[class*=\"product-title\"]",
    "h1[itemprop=\"name\"]",
    "h1" ]

/-- A rendered product page as the extractor observes it.  `selText sel` is
the result of `page.query_selector(sel)`: `none` when no element matches,
`some t` when an element matches and `text_content()` returns `t` (`t = none`
models a `None` text).  DOM querying is supplied by the external rendering
capability, so it enters the model as data. -/
structure ProductPage where
  selText : String → Option (Option String)
  title : String
  url : String
  descr : Option String
  price : Option Rat
  ingredientsResult : List String
  allergensResult : Option (List String)
  nutritionResult : Option (List (String × String))

/-- String form of `str.strip()`. -/
def pyStripStr (s : String) : String := String.mk (pyStrip s.data)

/-- The selector loop of `_extract_product_name`: return the first selector
whose element text is truthy, strips to a truthy value, and is not the
sentinel `"Oops!"` (src/app/scrapers/traderjoes.py lines 139-147). -/
def firstSelectorName (q : String → Option (Option String)) :
    List String → Option String
  | [] => none
  | sel :: rest =>
    match q sel with
    | some (some t) =>
      if pyStripStr t ≠ "" ∧ pyStripStr t ≠ "Oops!" then some (pyStripStr t)
      else firstSelectorName q rest
    | _ => firstSelectorName q rest

/-- The title fallback of `_extract_product_name`
(src/app/scrapers/traderjoes.py lines 149-156): if the title is truthy and
mentions the brand, take the part before the first `|`, delete every brand
occurrence, strip, and accept the result unless it is falsy or the sentinel.
`titleCandidate` is the local variable `name` computed at line 153. -/
def titleCandidate (title : String) : String :=
  String.mk (pyStrip (removePat tjBrand.data
    (title.data.takeWhile (fun c => c ≠ '|'))))

def titleFallbackName (title : String) : Option String :=
  if title ≠ "" ∧ pyContains title.data tjBrand.data then
    if titleCandidate title ≠ "" ∧ titleCandidate title ≠ "Oops!" then
      some (titleCandidate title)
    else none
  else none

/-- `TraderJoesScraper._extract_product_name`
(src/app/scrapers/traderjoes.py lines 124-162): try the selectors in order,
then the title fallback, then the sentinel `"Unknown Product"`. -/
def extractProductName (page : ProductPage) : String :=
  match firstSelectorName page.selText tjNameSelectors with
  | some name => name
  | none =>
    match titleFallbackName page.title with
    | some name => name
    | none => "Unknown Product"

/-! ## ProductData (src/app/models/product.py lines 7-84)

Timestamps (`scraped_at`) are opaque ISO strings supplied by the
environment; the fresh uuid of the `id` default factory is likewise an
environment-supplied string.  Durations are rationals standing for the float
`total_seconds()` values. -/

structure ProductData where
  id : String
  url : String
  product_name : String
  brand : Option String
  description : Option String
  price : Option Rat
  ingredients : List String
  allergens : Option (List String)
  nutrition_facts : Option (List (String × String))
  scraped_at : String
  scrape_duration : Rat
  scrape_status : String
  error_message : Option String
  scraper_version : String
deriving DecidableEq

/-- A `ProductData` with every dataclass default
(src/app/models/product.py lines 17-36), given the environment-supplied
fresh uuid and creation timestamp. -/
def ProductData.mkDefault (freshId nowIso : String) : ProductData :=
  { id := freshId, url := "", product_name := "", brand := none,
    description := none, price := none, ingredients := [], allergens := none,
    nutrition_facts := none, scraped_at := nowIso, scrape_duration := 0,
    scrape_status := "pending", error_message := none,
    scraper_version := "1.0.0" }

/-! ## `TraderJoesScraper.scrape` (src/app/scrapers/traderjoes.py lines 62-114)
and `BaseScraper.handle_errors` (src/app/scrapers/base.py lines 154-172)

The awaited browser operations are suspension points that may raise; a run of
`scrape` is therefore determined by a `ScrapeWorld` describing what each
operation does.  The per-field extractors other than the product name catch
their own exceptions internally and return a plain value, so they appear in
`ProductPage` as result data. -/

structure ScrapeWorld where
  /-- Result of `_launch_browser` plus `setup_page`: while these run the
  local `page` variable is still `None`, so a raise here reaches the
  no-page error branch (src/app/scrapers/traderjoes.py lines 104-114). -/
  launchResult : Except String Unit
  /-- Result of `page.goto` and the `wait_for_load_state` calls (the inner
  `wait_for_selector("h1")` timeout is caught and only logged). -/
  navResult : Except String Unit
  /-- Result of `wait_for_content`; `false` makes `scrape` raise
  `"Failed to load page content"` (src/app/scrapers/traderjoes.py line 85). -/
  contentOk : Bool
  /-- The rendered page, consulted once the page exists. -/
  page : ProductPage
  /-- Wall-clock `(datetime.now() - start_time).total_seconds()` at the
  moment the success record is built (line 99). -/
  elapsedSuccess : Rat
  /-- Same wall-clock difference at the moment the no-page failure record is
  built (line 113). -/
  elapsedNoPage : Rat
  /-- The true wall-clock elapsed time at the moment `handle_errors` builds
  its record.  The source never reads it: `handle_errors` hardcodes
  `scrape_duration=0.0` (src/app/scrapers/base.py line 163).  It is carried
  so that the timing specification can be stated against real time. -/
  elapsedFail : Rat

/-- `BaseScraper.handle_errors` (src/app/scrapers/base.py lines 154-172):
build a `failed` record from the current page URL and the fault text, with
`scrape_duration=0.0`, then best-effort fill `product_name` (the name
extractor catches all faults internally and cannot raise). -/
def handle_errors (page : ProductPage) (freshId nowIso : String)
    (err : String) : ProductData :=
  { ProductData.mkDefault freshId nowIso with
    url := page.url,
    scrape_status := "failed",
    error_message := some err,
    scrape_duration := 0,
    product_name := extractProductName page }

/-- `TraderJoesScraper.scrape` (src/app/scrapers/traderjoes.py lines 62-114):
launch, navigate, wait for content, then build the success record; any raise
is caught once at the top, dispatching on whether the page variable was
already assigned. -/
def TraderJoesScraper.scrape (w : ScrapeWorld) (freshId nowIso : String)
    (url : String) : ProductData :=
  match w.launchResult with
  | .error e =>
    { ProductData.mkDefault freshId nowIso with
      url := url, scrape_status := "failed", error_message := some e,
      scrape_duration := w.elapsedNoPage }
  | .ok _ =>
    match w.navResult with
    | .error e => handle_errors w.page freshId nowIso e
    | .ok _ =>
      if w.contentOk = false then
        handle_errors w.page freshId nowIso "Failed to load page content"
      else
        { id := freshId, url := url,
          product_name := extractProductName w.page,
          brand := some (tjBrand),
          description := w.page.descr,
          price := w.page.price,
          ingredients := w.page.ingredientsResult,
          allergens := w.page.allergensResult,
          nutrition_facts := w.page.nutritionResult,
          scraped_at := nowIso,
          scrape_status := "success",
          scrape_duration := w.elapsedSuccess,
          error_message := none,
          scraper_version := "1.0.0" }

/-- A world faulted when any of the three awaited stages failed. -/
def ScrapeWorld.faulty (w : ScrapeWorld) : Prop :=
  (∃ e, w.launchResult = .error e) ∨ (∃ e, w.navResult = .error e) ∨
    w.contentOk = false

/-- The description of the first fault of a faulty world, in the order the
source hits them. -/
def ScrapeWorld.faultDescr (w : ScrapeWorld) : String :=
  match w.launchResult with
  | .error e => e
  | .ok _ =>
    match w.navResult with
    | .error e => e
    | .ok _ => "Failed to load page content"

/-! ## Pagination crawler: `ProductUrlScraper`
(src/app/scrapers/product_url_scraper.py) -/

/-- What one loaded category page shows the crawler.  Pages are indexed by
the 1-based `current_page` counter of the loop: the k-th page load of a crawl
observes `pages k`.  `currentIndicator` is the text of the pagination item
with `aria-current="page"` (`none` when no such item exists or its text is
`None`, both of which make `_get_next_page_url` return `None`). -/
structure CategoryPage where
  /-- Whether `page.goto` + `wait_for_load_state` succeed; a raise here
  propagates to `scrape_category`'s handler, which returns the URLs
  accumulated so far (src/app/scrapers/product_url_scraper.py lines 83-85). -/
  loadOk : Bool
  /-- Product URLs extracted by `_extract_product_urls` (which catches its
  own faults and returns `[]`). -/
  urls : List String
  /-- Whether the pagination container selector appears before the 5s
  timeout (line 121); a timeout raises and yields `None`. -/
  paginationPresent : Bool
  /-- Whether a non-disabled next-page arrow button exists (line 126). -/
  nextButtonEnabled : Bool
  /-- Text content of the current-page pagination item, if any. -/
  currentIndicator : Option String

/-- The cleaning applied to the current-page indicator text before `int`:
delete every occurrence of `"page"`, then strip
(src/app/scrapers/product_url_scraper.py line 147). -/
def cleanIndicator (t : String) : List Char :=
  pyStrip (removePat "page".data t.data)

/-- `base_url = current_url.split("?")[0]`
(src/app/scrapers/product_url_scraper.py line 158). -/
def baseUrlOf (url : String) : String :=
  String.mk (url.data.takeWhile (fun c => c ≠ '?'))

/-- The next-page URL built at line 161: base URL plus the encoded
`filters` query parameter (the `%7B`/`%7D` are literal percent-escapes in
the source string). -/
def nextUrlStr (base : String) (n : Int) : String :=
  base ++ "?filters=%7B%22page%22%3A" ++ toString n ++ "%7D"

/-- `ProductUrlScraper._get_next_page_url`
(src/app/scrapers/product_url_scraper.py lines 117-178): `None` unless the
pagination container appears, an enabled next button exists, a current-page
item with text is found, and its cleaned text parses as an integer; then the
next URL encodes that integer plus one. -/
def getNextPageUrl (snap : CategoryPage) (url : String) : Option String :=
  if snap.paginationPresent = false then none
  else if snap.nextButtonEnabled = false then none
  else
    match snap.currentIndicator with
    | none => none
    | some t =>
      match pyInt (cleanIndicator t) with
      | none => none
      | some n => some (nextUrlStr (baseUrlOf url) (n + 1))

/-- Truthiness of `self.max_pages and current_page > self.max_pages`
(src/app/scrapers/product_url_scraper.py line 58): `None` and `0` are falsy,
so they never trigger the cap. -/
def capHit (maxPages : Option Int) (currentPage : Nat) : Bool :=
  match maxPages with
  | none => false
  | some m => m ≠ 0 && (currentPage : Int) > m

/-- The `while current_url:` loop of `scrape_category`
(src/app/scrapers/product_url_scraper.py lines 54-81), with explicit fuel:
`none` means the fuel ran out before the loop stopped on its own.  Each
iteration: exit if the URL is falsy; break if the cap fires; load the page
(a failed load raises, and the top-level handler returns the URLs gathered
so far); append the page's product URLs; continue with the next-page URL or
stop when there is none. -/
def crawlLoop (pages : Nat → CategoryPage) (maxPages : Option Int) :
    Nat → String → Nat → List String → Option (List String)
  | 0, _, _, _ => none
  | fuel + 1, url, k, acc =>
    if url = "" then some acc
    else if capHit maxPages k then some acc
    else if (pages k).loadOk = false then some acc
    else
      match getNextPageUrl (pages k) url with
      | none => some (acc ++ (pages k).urls)
      | some nurl =>
        crawlLoop pages maxPages fuel nurl (k + 1) (acc ++ (pages k).urls)

/-- `ProductUrlScraper.scrape_category`
(src/app/scrapers/product_url_scraper.py lines 43-85): run the loop from the
category URL with `current_page = 1` and no URLs accumulated. -/
def scrape_category (pages : Nat → CategoryPage) (maxPages : Option Int)
    (fuel : Nat) (categoryUrl : String) : Option (List String) :=
  crawlLoop pages maxPages fuel categoryUrl 1 []

/-- The URLs of the visited pages `k, k + 1, ..., k + n - 1` in crawl order. -/
def collectUrls (pages : Nat → CategoryPage) (k : Nat) : Nat → List String
  | 0 => []
  | n + 1 => (pages k).urls ++ collectUrls pages (k + 1) n

/-- A page on which `_get_next_page_url` succeeds: everything is present and
the cleaned indicator parses as an integer. -/
def CategoryPage.advances (snap : CategoryPage) : Prop :=
  snap.loadOk = true ∧ snap.paginationPresent = true ∧
    snap.nextButtonEnabled = true ∧
    ∃ t n, snap.currentIndicator = some t ∧ pyInt (cleanIndicator t) = some n

/-- A page that loads and reaches the integer parse, which then fails: this
is the "current-page indicator cannot be parsed" stop condition. -/
def CategoryPage.stopsUnparseable (snap : CategoryPage) : Prop :=
  snap.loadOk = true ∧ snap.paginationPresent = true ∧
    snap.nextButtonEnabled = true ∧
    ∃ t, snap.currentIndicator = some t ∧ pyInt (cleanIndicator t) = none

/-! ## ScrapeJob (src/app/models/product.py lines 87-127) -/

structure ScrapeJob where
  job_id : String
  url : String
  status : String
  created_at : String
  started_at : Option String
  completed_at : Option String
  result_product_id : Option String
  error_message : Option String
  retry_count : Int
  max_retries : Int
  /-- Opaque configuration bag (`options: Dict[str, Any]`). -/
  options : List (String × String)
deriving DecidableEq

/-- The job created by the `/scrape` endpoint (src/app/main.py lines 65-71):
status `pending`, `max_retries=3`, every other field at its dataclass
default. -/
def freshJob (jid url createdAt : String) : ScrapeJob :=
  { job_id := jid, url := url, status := "pending", created_at := createdAt,
    started_at := none, completed_at := none, result_product_id := none,
    error_message := none, retry_count := 0, max_retries := 3, options := [] }

/-- `ScrapeJob.mark_processing` (src/app/models/product.py lines 110-113). -/
def ScrapeJob.mark_processing (j : ScrapeJob) (nowIso : String) : ScrapeJob :=
  { j with status := "processing", started_at := some nowIso }

/-- `ScrapeJob.mark_completed` (src/app/models/product.py lines 115-119):
sets `result_product_id` and does not touch `error_message`. -/
def ScrapeJob.mark_completed (j : ScrapeJob) (nowIso pid : String) :
    ScrapeJob :=
  { j with
    status := "completed",
    completed_at := some nowIso,
    result_product_id := some pid }

/-- `ScrapeJob.mark_failed` (src/app/models/product.py lines 121-126):
sets `error_message`, bumps `retry_count`, and does not touch
`result_product_id`. -/
def ScrapeJob.mark_failed (j : ScrapeJob) (nowIso err : String) : ScrapeJob :=
  { j with
    status := "failed",
    completed_at := some nowIso,
    error_message := some err,
    retry_count := j.retry_count + 1 }

/-- One invocation of a transition method, with its environment-supplied
timestamp and payload. -/
inductive JobTransition where
  | begin (nowIso : String)
  | succeed (nowIso pid : String)
  | fail (nowIso err : String)
deriving DecidableEq

def applyTransition (j : ScrapeJob) : JobTransition → ScrapeJob
  | .begin t => j.mark_processing t
  | .succeed t pid => j.mark_completed t pid
  | .fail t err => j.mark_failed t err

/-- Apply a sequence of transition-method invocations in order. -/
def applyAll (j : ScrapeJob) (ts : List JobTransition) : ScrapeJob :=
  ts.foldl applyTransition j

/-- Whether a transition list contains a `succeed` invocation. -/
def hasSucceed (ts : List JobTransition) : Prop :=
  ∃ t pid, JobTransition.succeed t pid ∈ ts

/-- Whether a transition list contains a `fail` invocation. -/
def hasFail (ts : List JobTransition) : Prop :=
  ∃ t err, JobTransition.fail t err ∈ ts

/-! ## SHA-256 (FIPS 180-4), the semantics of `hashlib.sha256(...).hexdigest()`
used by `FirebaseService._generate_url_hash`
(src/app/services/firebase.py lines 216-218).

Thirty-two-bit words are `Nat` values below `2 ^ 32`; every arithmetic
operation reduces modulo `2 ^ 32`. -/

def w32 : Nat := 4294967296

def rotr32 (n x : Nat) : Nat :=
  (x >>> n) + ((x % 2 ^ n) <<< (32 - n))

def shr32 (n x : Nat) : Nat := x >>> n

def bsig0 (x : Nat) : Nat := rotr32 2 x ^^^ rotr32 13 x ^^^ rotr32 22 x

def bsig1 (x : Nat) : Nat := rotr32 6 x ^^^ rotr32 11 x ^^^ rotr32 25 x

def ssig0 (x : Nat) : Nat := rotr32 7 x ^^^ rotr32 18 x ^^^ shr32 3 x

def ssig1 (x : Nat) : Nat := rotr32 17 x ^^^ rotr32 19 x ^^^ shr32 10 x

def chFn (x y z : Nat) : Nat := (x &&& y) ^^^ ((x ^^^ 4294967295) &&& z)

def majFn (x y z : Nat) : Nat := (x &&& y) ^^^ (x &&& z) ^^^ (y &&& z)

/-- The 64 round constants of FIPS 180-4, written in decimal. -/
def sha256K : List Nat :=
  [1116352408, 1899447441, 3049323471, 3921009573,
   961987163, 1508970993, 2453635748, 2870763221,
   3624381080, 310598401, 607225278, 1426881987,
   1925078388, 2162078206, 2614888103, 3248222580,
   3835390401, 4022224774, 264347078, 604807628,
   770255983, 1249150122, 1555081692, 1996064986,
   2554220882, 2821834349, 2952996808, 3210313671,
   3336571891, 3584528711, 113926993, 338241895,
   666307205, 773529912, 1294757372, 1396182291,
   1695183700, 1986661051, 2177026350, 2456956037,
   2730485921, 2820302411, 3259730800, 3345764771,
   3516065817, 3600352804, 4094571909, 275423344,
   430227734, 506948616, 659060556, 883997877,
   958139571, 1322822218, 1537002063, 1747873779,
   1955562222, 2024104815, 2227730452, 2361852424,
   2428436474, 2756734187, 3204031479, 3329325298]

/-- The initial hash value of FIPS 180-4, written in decimal. -/
def sha256H0 : List Nat :=
  [1779033703, 3144134277, 1013904242, 2773480762,
   1359893119, 2600822924, 528734635, 1541459225]

/-- Big-endian 32-bit words from bytes (length a multiple of 4). -/
def bytesToWords : List Nat → List Nat
  | b1 :: b2 :: b3 :: b4 :: rest =>
    (((b1 * 256 + b2) * 256 + b3) * 256 + b4) :: bytesToWords rest
  | _ => []

/-- The 8-byte big-endian encoding of the bit length. -/
def lenBytes64 (n : Nat) : List Nat :=
  [n / 2 ^ 56 % 256, n / 2 ^ 48 % 256, n / 2 ^ 40 % 256, n / 2 ^ 32 % 256,
   n / 2 ^ 24 % 256, n / 2 ^ 16 % 256, n / 2 ^ 8 % 256, n % 256]

/-- SHA-256 padding: `0x80`, zeros to 56 mod 64, then the 64-bit length. -/
def sha256Pad (msg : List Nat) : List Nat :=
  let L := msg.length
  msg ++ [128] ++ List.replicate ((120 - (L + 1) % 64) % 64) 0 ++
    lenBytes64 (8 * L)

/-- Split into 64-byte blocks (the padded message length is always a
multiple of 64). -/
def chunks64 (l : List Nat) : List (List Nat) :=
  (List.range (l.length / 64)).map fun i => (l.drop (64 * i)).take 64

def wAt (w : List Nat) (i : Nat) : Nat := w.getD i 0

/-- Extend the 16 message words to 64. -/
def extendW (w : List Nat) : Nat → List Nat
  | 0 => w
  | n + 1 =>
    let j := w.length
    extendW
      (w ++ [(ssig1 (wAt w (j - 2)) + wAt w (j - 7) + ssig0 (wAt w (j - 15)) +
        wAt w (j - 16)) % w32]) n

structure Sha256Regs where
  ra : Nat
  rb : Nat
  rc : Nat
  rd : Nat
  re : Nat
  rf : Nat
  rg : Nat
  rh : Nat

/-- One compression round. -/
def sha256Step (r : Sha256Regs) (kw : Nat × Nat) : Sha256Regs :=
  let t1 := (r.rh + bsig1 r.re + chFn r.re r.rf r.rg + kw.1 + kw.2) % w32
  let t2 := (bsig0 r.ra + majFn r.ra r.rb r.rc) % w32
  { ra := (t1 + t2) % w32, rb := r.ra, rc := r.rb, rd := r.rc,
    re := (r.rd + t1) % w32, rf := r.re, rg := r.rf, rh := r.rg }

/-- Compress one 64-byte block into the running hash. -/
def sha256Block (h : List Nat) (block : List Nat) : List Nat :=
  let w := extendW (bytesToWords block) 48
  let init : Sha256Regs :=
    { ra := wAt h 0, rb := wAt h 1, rc := wAt h 2, rd := wAt h 3,
      re := wAt h 4, rf := wAt h 5, rg := wAt h 6, rh := wAt h 7 }
  let fin := (sha256K.zip w).foldl sha256Step init
  [(wAt h 0 + fin.ra) % w32, (wAt h 1 + fin.rb) % w32,
   (wAt h 2 + fin.rc) % w32, (wAt h 3 + fin.rd) % w32,
   (wAt h 4 + fin.re) % w32, (wAt h 5 + fin.rf) % w32,
   (wAt h 6 + fin.rg) % w32, (wAt h 7 + fin.rh) % w32]

/-- SHA-256 of a byte sequence, as eight 32-bit words. -/
def sha256Words (msg : List Nat) : List Nat :=
  (chunks64 (sha256Pad msg)).foldl sha256Block sha256H0

/-- Lowercase hex digit: codepoint 48 + n for 0-9, 87 + n for a-f. -/
def hexDigit (n : Nat) : Char :=
  if n < 10 then Char.ofNat (48 + n) else Char.ofNat (87 + n)

/-- Eight hex digits of a 32-bit word, most significant first. -/
def wordHex (w : Nat) : List Char :=
  [hexDigit (w / 16 ^ 7 % 16), hexDigit (w / 16 ^ 6 % 16),
   hexDigit (w / 16 ^ 5 % 16), hexDigit (w / 16 ^ 4 % 16),
   hexDigit (w / 16 ^ 3 % 16), hexDigit (w / 16 ^ 2 % 16),
   hexDigit (w / 16 % 16), hexDigit (w % 16)]

/-- `hexdigest()`: 64 lowercase hex characters. -/
def sha256Hex (msg : List Nat) : String :=
  String.mk ((sha256Words msg).flatMap wordHex)

/-- Python `str.encode()`: UTF-8 bytes of a string. -/
def utf8Bytes (c : Char) : List Nat :=
  let n := c.toNat
  if n < 128 then [n]
  else if n < 2048 then [192 + n / 64, 128 + n % 64]
  else if n < 65536 then
    [224 + n / 4096, 128 + n / 64 % 64, 128 + n % 64]
  else
    [240 + n / 262144, 128 + n / 4096 % 64, 128 + n / 64 % 64, 128 + n % 64]

def strBytes (s : String) : List Nat := s.data.flatMap utf8Bytes

/-- `FirebaseService._generate_url_hash`
(src/app/services/firebase.py lines 216-218): SHA-256 hex digest of the raw
URL string; no normalization of any kind is applied first. -/
def generate_url_hash (url : String) : String :=
  sha256Hex (strBytes url)

/-! ## Firebase store model (src/app/services/firebase.py)

Firestore collections are association lists keyed by document id; a
`document(k).set(v)` prepends, and lookups take the most recent write, which
models Firestore's overwrite semantics.  Documents hold the typed records
directly: `ProductData.to_dict`/`from_dict` transport every field, so the
dict round trip is the identity on well-typed records. -/

structure UrlIndexEntry where
  product_id : String
  url : String
  updated_at : String
deriving DecidableEq

structure FirebaseState where
  products : List (String × ProductData)
  url_lookup : List (String × UrlIndexEntry)
  jobs : List (String × ScrapeJob)

def FirebaseState.empty : FirebaseState := ⟨[], [], []⟩

/-- `FirebaseService.store_product` (src/app/services/firebase.py lines
49-72): write the record under its id, then upsert the URL-hash index entry
pointing at that id. -/
def store_product (st : FirebaseState) (p : ProductData) (nowIso : String) :
    FirebaseState :=
  { st with
    products := (p.id, p) :: st.products,
    url_lookup :=
      (generate_url_hash p.url, ⟨p.id, p.url, nowIso⟩) :: st.url_lookup }

/-- `FirebaseService.get_product_by_id`
(src/app/services/firebase.py lines 91-103). -/
def get_product_by_id (st : FirebaseState) (pid : String) :
    Option ProductData :=
  st.products.lookup pid

/-- `FirebaseService.get_product_by_url`
(src/app/services/firebase.py lines 74-89): hash the query URL, consult the
index, then fetch the recorded product id. -/
def get_product_by_url (st : FirebaseState) (url : String) :
    Option ProductData :=
  match st.url_lookup.lookup (generate_url_hash url) with
  | some entry => get_product_by_id st entry.product_id
  | none => none

/-- `FirebaseService.store_job` (src/app/services/firebase.py lines
105-130). -/
def store_job (st : FirebaseState) (j : ScrapeJob) : FirebaseState :=
  { st with jobs := (j.job_id, j) :: st.jobs }

/-! ## The `/scrape` endpoint (src/app/main.py lines 42-98) -/

/-- `ScrapeRequest` (src/app/models/api.py lines 5-19); the `HttpUrl` is its
string form (pydantic v1 `HttpUrl` is a `str` subclass). -/
structure ScrapeRequest where
  url : String
  store_in_firebase : Bool
  include_nutrition : Bool
  force_refresh : Bool
  webhook_url : Option String

/-- `ScrapeResponse` (src/app/models/api.py lines 21-31).  `job_id` is a
required `str` field. -/
structure ScrapeResponse where
  job_id : String
  status : String
  message : String
  product_id : Option String
  estimated_completion : Option String
deriving DecidableEq

/-- A Python value the handler passes into a `str`-typed or `Optional[str]`
pydantic field of `ScrapeResponse`: the source passes string literals and
ids (`str`), `None`, or `datetime` objects (`datetime.now()` and
`datetime.now() + timedelta(minutes=5)`, src/app/main.py lines 61 and 91).
The `fromDatetime` payload is the object's opaque ISO rendering. -/
inductive PyStrVal where
  | fromStr (s : String)
  | fromNone
  | fromDatetime (iso : String)
deriving DecidableEq

/-- Pydantic validation of a value against an `Optional[str]` field:
`str` passes through, `None` is allowed, and a `datetime` object is
rejected (pydantic v1's str validator coerces only str/int/float/Decimal/
bytes and raises `StrError` on a datetime; v2 likewise rejects it).
`none` here means a `ValidationError`. -/
def validOptStr : PyStrVal → Option (Option String)
  | .fromStr s => some (some s)
  | .fromNone => some none
  | .fromDatetime _ => none

/-- Constructing a `ScrapeResponse` runs pydantic validation:
`job_id: str = Field(...)` is a required `str`, so `None` (and a fortiori a
`datetime`) raises a `ValidationError`; `product_id` and
`estimated_completion` are `Optional[str]`, so `None` is allowed but a
`datetime` object is rejected.  `status` and `message` always receive
string literals in the source and stay plain strings here. -/
def mkScrapeResponse (job_id : PyStrVal) (status message : String)
    (product_id est : PyStrVal) : Except String ScrapeResponse :=
  match job_id with
  | .fromStr j =>
    match validOptStr product_id, validOptStr est with
    | some pid, some e => .ok ⟨j, status, message, pid, e⟩
    | _, _ =>
      .error "validation error for ScrapeResponse: value is not a valid string"
  | _ =>
    .error "validation error for ScrapeResponse: job_id none is not an allowed value"

/-- `TraderJoesScraper.can_handle` (src/app/scrapers/traderjoes.py lines
58-60). -/
def can_handle (url : String) : Bool :=
  pyContains (url.data.map pyToLower) "traderjoes.com".data &&
    pyContains (url.data.map pyToLower) "/products/".data

/-- Outcome of one endpoint call: either a validated response or an HTTP
error raised via `HTTPException`. -/
inductive ApiResult (α : Type) where
  | ok (a : α)
  | httpError (code : Nat) (detail : String)

def ApiResult.code? : ApiResult α → Option Nat
  | .ok _ => none
  | .httpError c _ => some c

/-- `scrape_product`, the POST `/scrape` handler (src/app/main.py lines
42-98).  Returns the call's outcome together with the store state after the
call.  Control flow of the source: inside one `try`, reject unsupported
URLs with a 400 `HTTPException` (which the handler's own
`except Exception` immediately rewraps as a 500); otherwise, unless a
forced refresh was requested, look up an existing product by URL and, if
found, build the short-circuit response with `job_id=None` and
`estimated_completion=datetime.now()`; otherwise create a pending job,
persist it, schedule the background task, and build the accepted response
with `estimated_completion=datetime.now() + timedelta(minutes=5)` (a
`datetime` object in both constructions).  Any exception — including a
pydantic `ValidationError` from a response constructor — is caught and
rewrapped as a 500 `HTTPException`; a job persisted before the constructor
raised stays persisted. -/
def scrape_product (st : FirebaseState) (req : ScrapeRequest)
    (freshJobId nowIso estIso : String) :
    ApiResult ScrapeResponse × FirebaseState :=
  if can_handle req.url = false then
    (.httpError 500
      ("Error starting scrape job: 400: URL not supported by any available scraper"),
      st)
  else if req.force_refresh = false ∧ (get_product_by_url st req.url).isSome
  then
    match get_product_by_url st req.url with
    | some existing =>
      match mkScrapeResponse PyStrVal.fromNone "completed"
        "Product already exists" (PyStrVal.fromStr existing.id)
        (PyStrVal.fromDatetime nowIso) with
      | .ok r => (.ok r, st)
      | .error e => (.httpError 500 ("Error starting scrape job: " ++ e), st)
    | none => (.httpError 500 "unreachable", st)
  else
    let job := freshJob freshJobId req.url nowIso
    let st' := store_job st job
    match mkScrapeResponse (PyStrVal.fromStr freshJobId) "pending"
      "Scraping job started" PyStrVal.fromNone
      (PyStrVal.fromDatetime estIso) with
    | .ok r => (.ok r, st')
    | .error e => (.httpError 500 ("Error starting scrape job: " ++ e), st')

/-! ## Concrete scenarios used by the theorems below -/

/-- A product page whose only matching selector is the bare `h1`, reading
`"Widget"`; the title is empty. -/
def widgetPage : ProductPage :=
  { selText := fun s => if s = "h1" then some (some "Widget") else none,
    title := "", url := "https://www.traderjoes.com/home/products/pdp/w-1",
    descr := none, price := none, ingredientsResult := [],
    allergensResult := none, nutritionResult := none }

/-- An error page: the only `h1` reads the sentinel `"Oops!"` and the title
is the error-page title, so no usable name exists anywhere. -/
def oopsPage : ProductPage :=
  { selText := fun s => if s = "h1" then some (some "Oops!") else none,
    title := "Oops! | " ++ tjBrand,
    url := "https://www.traderjoes.com/home/products/pdp/gone-404",
    descr := none, price := none, ingredientsResult := [],
    allergensResult := none, nutritionResult := none }

/-- A page where every structured selector fails but the browser title names
the product. -/
def strawberryPage : ProductPage :=
  { selText := fun _ => none,
    title := "Strawberry Cookies | " ++ tjBrand,
    url := "https://www.traderjoes.com/home/products/pdp/sc-2",
    descr := none, price := none, ingredientsResult := [],
    allergensResult := none, nutritionResult := none }

/-- A world in which the browser launch itself raises, so the `page`
variable is never assigned. -/
def launchFailWorld : ScrapeWorld :=
  { launchResult := .error "net down", navResult := .ok (), contentOk := true,
    page := widgetPage, elapsedSuccess := 1, elapsedNoPage := 2,
    elapsedFail := 5 }

/-- A world in which navigation raises after the page was created. -/
def navFailWorld : ScrapeWorld :=
  { launchResult := .ok (), navResult := .error "Timeout 30000ms exceeded",
    contentOk := true, page := widgetPage, elapsedSuccess := 1,
    elapsedNoPage := 2, elapsedFail := 5 }

/-- A two-page category crawl: page 1's indicator parses (`"page1"`), page
2's indicator (`"?!"`) does not. -/
def pagesC2 : Nat → CategoryPage := fun k =>
  if k = 1 then
    { loadOk := true, urls := ["https://www.traderjoes.com/p1"],
      paginationPresent := true, nextButtonEnabled := true,
      currentIndicator := some "page1" }
  else
    { loadOk := true, urls := ["https://www.traderjoes.com/p2"],
      paginationPresent := true, nextButtonEnabled := true,
      currentIndicator := some "?!" }

/-- A single-page category: the next-page button is disabled, so the crawl
stops after loading one page. -/
def pagesOne : Nat → CategoryPage := fun _ =>
  { loadOk := true, urls := ["https://www.traderjoes.com/a"],
    paginationPresent := true, nextButtonEnabled := false,
    currentIndicator := some "page1" }

/-- A supported product URL. -/
def tjUrl : String :=
  "https://www.traderjoes.com/home/products/pdp/chocolate-hummus-123"

/-- A previously stored product for `tjUrl`. -/
def existingProd : ProductData :=
  { ProductData.mkDefault "prod-1" "2024-01-01T00:00:00" with
    url := tjUrl, product_name := "Chocolate Hummus",
    scrape_status := "success" }

/-- The store after `existingProd` was persisted. -/
def storeWithProd : FirebaseState :=
  store_product FirebaseState.empty existingProd "2024-01-01T00:00:01"

/-- A scrape request for `tjUrl` without forced refresh. -/
def reqNoRefresh : ScrapeRequest :=
  { url := tjUrl, store_in_firebase := true, include_nutrition := false,
    force_refresh := false, webhook_url := none }

/-- The same request with `force_refresh=true`. -/
def reqRefresh : ScrapeRequest :=
  { reqNoRefresh with force_refresh := true }

/-! # Theorems -/

/-! ## Helper lemmas for name extraction (C7) -/

theorem firstSelectorName_ne_oops (q : String → Option (Option String)) :
    ∀ sels name, firstSelectorName q sels = some name → name ≠ "Oops!" := by
  intro sels
  induction sels with
  | nil => intro name h; simp [firstSelectorName] at h
  | cons sel rest ih =>
    intro name h
    cases hq : q sel with
    | none => simp only [firstSelectorName, hq] at h; exact ih name h
    | some t =>
      cases t with
      | none => simp only [firstSelectorName, hq] at h; exact ih name h
      | some txt =>
        simp only [firstSelectorName, hq] at h
        by_cases hc : pyStripStr txt ≠ "" ∧ pyStripStr txt ≠ "Oops!"
        · rw [if_pos hc] at h
          injection h with h'
          rw [← h']
          exact hc.2
        · rw [if_neg hc] at h
          exact ih name h

theorem titleFallbackName_ne_oops (title name : String)
    (h : titleFallbackName title = some name) : name ≠ "Oops!" := by
  unfold titleFallbackName at h
  split at h
  · split at h
    · rename_i hc
      injection h with h'
      rw [← h']
      exact hc.2
    · exact absurd h (by simp)
  · exact absurd h (by simp)

theorem extractProductName_ne_oops (page : ProductPage) :
    extractProductName page ≠ "Oops!" := by
  unfold extractProductName
  cases hf : firstSelectorName page.selText tjNameSelectors with
  | some nm => exact firstSelectorName_ne_oops _ _ _ hf
  | none =>
    cases ht : titleFallbackName page.title with
    | some nm => exact titleFallbackName_ne_oops _ _ ht
    | none => decide

/-- Claim C7: product-name extraction tries its selector strategies in
order and treats a result equal to the sentinel `"Oops!"` as a non-match: a
page whose only `h1` reads `"Oops!"` (and whose title has no usable name)
yields `"Unknown Product"`, a page where every structured selector fails but
whose title is `"Strawberry Cookies | Trader Joe"`+apostrophe+`"s"` yields
`"Strawberry Cookies"`, and no page whatsoever can make the extractor return
the sentinel `"Oops!"`. -/
theorem c7_sentinel_and_title_fallback :
    extractProductName oopsPage = "Unknown Product" ∧
    extractProductName strawberryPage = "Strawberry Cookies" ∧
    ∀ page : ProductPage, extractProductName page ≠ "Oops!" :=
  ⟨by decide, by decide, extractProductName_ne_oops⟩

/-! ## Helper lemmas for job transitions (C4) -/

theorem applyAll_result_eq (ts : List JobTransition) :
    ∀ j : ScrapeJob, (∀ t pid, JobTransition.succeed t pid ∉ ts) →
    (applyAll j ts).result_product_id = j.result_product_id := by
  induction ts with
  | nil => intro j h; rfl
  | cons t ts ih =>
    intro j h
    cases t with
    | begin n =>
      exact ih _ fun a b hm => h a b (List.mem_cons_of_mem _ hm)
    | succeed n pid =>
      exact absurd (List.mem_cons_self _ _) (h n pid)
    | fail n e =>
      exact ih _ fun a b hm => h a b (List.mem_cons_of_mem _ hm)

theorem applyAll_error_eq (ts : List JobTransition) :
    ∀ j : ScrapeJob, (∀ t err, JobTransition.fail t err ∉ ts) →
    (applyAll j ts).error_message = j.error_message := by
  induction ts with
  | nil => intro j h; rfl
  | cons t ts ih =>
    intro j h
    cases t with
    | begin n =>
      exact ih _ fun a b hm => h a b (List.mem_cons_of_mem _ hm)
    | succeed n pid =>
      exact ih _ fun a b hm => h a b (List.mem_cons_of_mem _ hm)
    | fail n e =>
      exact absurd (List.mem_cons_self _ _) (h n e)

/-- Claim C4 (amended): the transition methods do not guard on the current
state, so the at-most-one invariant holds for exactly those transition
sequences that do not contain both a `mark_completed` and a `mark_failed`
invocation; for such sequences a job reachable from a fresh pending job
never has `result_product_id` and `error_message` both set. -/
theorem c4_at_most_one_when_not_both (jid url t0 : String)
    (ts : List JobTransition) (h : ¬(hasSucceed ts ∧ hasFail ts)) :
    (applyAll (freshJob jid url t0) ts).result_product_id = none ∨
    (applyAll (freshJob jid url t0) ts).error_message = none := by
  by_cases hs : hasSucceed ts
  · right
    have hf : ∀ t e, JobTransition.fail t e ∉ ts := by
      intro t e hm
      exact h ⟨hs, ⟨t, e, hm⟩⟩
    rw [applyAll_error_eq ts _ hf]
    rfl
  · left
    have hsn : ∀ t pid, JobTransition.succeed t pid ∉ ts := by
      intro t pid hm
      exact hs ⟨t, pid, hm⟩
    rw [applyAll_result_eq ts _ hsn]
    rfl

/-- Witness for C4: a fresh job taken through `mark_processing` then
`mark_completed` has at most one of the two result fields set. -/
theorem c4_witness :
    (applyAll (freshJob "job-1" "https://u" "t0")
      [JobTransition.begin "t1",
       JobTransition.succeed "t2" "prod-9"]).result_product_id = none ∨
    (applyAll (freshJob "job-1" "https://u" "t0")
      [JobTransition.begin "t1",
       JobTransition.succeed "t2" "prod-9"]).error_message = none :=
  c4_at_most_one_when_not_both "job-1" "https://u" "t0" _
    (by rintro ⟨-, t, e, hm⟩; simp at hm)

/-- Counterexample for C4 as stated: `mark_completed` followed by
`mark_failed` (an unguarded sequence the dataclass allows) leaves both
`result_product_id` and `error_message` set. -/
theorem c4_counterexample :
    (applyAll (freshJob "job-1" "https://u" "t0")
      [JobTransition.succeed "t1" "prod-9",
       JobTransition.fail "t2" "boom"]).result_product_id = some "prod-9" ∧
    (applyAll (freshJob "job-1" "https://u" "t0")
      [JobTransition.succeed "t1" "prod-9",
       JobTransition.fail "t2" "boom"]).error_message = some "boom" :=
  ⟨rfl, rfl⟩

/-! ## C1: scrape never propagates and returns a failed record -/

/-- Claim C1 (amended): `scrape` is a total function into `ProductData` (no
exception escapes), and for every faulted world the returned record has
status `"failed"` and carries the fault description; the best-effort name
extraction is performed exactly when the fault arose after the page variable
was assigned — a fault during browser launch leaves the name at its empty
default. -/
theorem c1_failed_record (w : ScrapeWorld) (freshId nowIso url : String)
    (h : w.faulty) :
    (TraderJoesScraper.scrape w freshId nowIso url).scrape_status = "failed" ∧
    (TraderJoesScraper.scrape w freshId nowIso url).error_message =
      some w.faultDescr ∧
    (TraderJoesScraper.scrape w freshId nowIso url).product_name =
      (match w.launchResult with
       | .error _ => ""
       | .ok _ => extractProductName w.page) := by
  unfold TraderJoesScraper.scrape ScrapeWorld.faultDescr
  cases hl : w.launchResult with
  | error e => exact ⟨rfl, rfl, rfl⟩
  | ok u =>
    cases hn : w.navResult with
    | error e => exact ⟨rfl, rfl, rfl⟩
    | ok v =>
      have hc : w.contentOk = false := by
        rcases h with ⟨e, he⟩ | ⟨e, he⟩ | hch
        · rw [hl] at he; exact Except.noConfusion he
        · rw [hn] at he; exact Except.noConfusion he
        · exact hch
      rw [hc]
      exact ⟨rfl, rfl, rfl⟩

/-- Witness for C1 at a concrete world whose navigation times out. -/
theorem c1_witness :
    (TraderJoesScraper.scrape navFailWorld "id-1" "t-1"
      "https://www.traderjoes.com/home/products/pdp/w-1").scrape_status =
      "failed" ∧
    (TraderJoesScraper.scrape navFailWorld "id-1" "t-1"
      "https://www.traderjoes.com/home/products/pdp/w-1").error_message =
      some "Timeout 30000ms exceeded" :=
  ⟨(c1_failed_record navFailWorld "id-1" "t-1"
      "https://www.traderjoes.com/home/products/pdp/w-1"
      (Or.inr (Or.inl ⟨"Timeout 30000ms exceeded", rfl⟩))).1,
   ((c1_failed_record navFailWorld "id-1" "t-1"
      "https://www.traderjoes.com/home/products/pdp/w-1"
      (Or.inr (Or.inl ⟨"Timeout 30000ms exceeded", rfl⟩))).2.1).trans
     (by decide)⟩

/-- Counterexample for C1 as stated: when the browser launch itself faults,
no page exists and no best-effort name extraction happens — the record keeps
the empty default name even though the (would-be) page carries an
extractable name. -/
theorem c1_counterexample :
    (TraderJoesScraper.scrape launchFailWorld "id-0" "t-0"
      "https://www.traderjoes.com/home/products/pdp/w-1").product_name = "" ∧
    extractProductName launchFailWorld.page = "Widget" ∧
    ("" : String) ≠ "Widget" ∧
    (TraderJoesScraper.scrape launchFailWorld "id-0" "t-0"
      "https://www.traderjoes.com/home/products/pdp/w-1").scrape_status =
      "failed" :=
  ⟨rfl, by decide, by decide, rfl⟩

/-! ## C6: which duration is stored on the record -/

/-- Claim C6 (amended): the elapsed wall-clock duration is recorded on the
success path and on failures that precede page creation; on any failure
after the page exists, `handle_errors` stores the constant `0.0` instead of
the elapsed time. -/
theorem c6_duration_by_path (w : ScrapeWorld) (freshId nowIso url : String) :
    (TraderJoesScraper.scrape w freshId nowIso url).scrape_duration =
      (match w.launchResult, w.navResult with
       | .error _, _ => w.elapsedNoPage
       | .ok _, .error _ => 0
       | .ok _, .ok _ =>
         if w.contentOk = false then 0 else w.elapsedSuccess) := by
  unfold TraderJoesScraper.scrape
  cases hl : w.launchResult with
  | error e => rfl
  | ok u =>
    cases hn : w.navResult with
    | error e => rfl
    | ok v =>
      cases hco : w.contentOk
      · rfl
      · rfl

/-- Counterexample for C6 as stated: a navigation fault after page creation
takes 5 seconds of wall-clock time, yet the returned record's
`scrape_duration` is 0. -/
theorem c6_counterexample :
    navFailWorld.elapsedFail = 5 ∧
    (TraderJoesScraper.scrape navFailWorld "id-2" "t-2"
      "https://www.traderjoes.com/home/products/pdp/w-1").scrape_duration =
      0 ∧
    (0 : Rat) ≠ 5 :=
  ⟨rfl, rfl, by norm_num⟩

/-! ## Character-level lemmas for the ingredient parser (C5, C8) -/

theorem toNat_ofNat_valid (n : Nat) (h : n.isValidChar) :
    (Char.ofNat n).toNat = n := by
  rw [Char.ofNat, dif_pos h]
  rfl

theorem pyToLower_not_upper (c : Char) : isUpperAscii (pyToLower c) = false := by
  unfold pyToLower Char.toLower isUpperAscii
  by_cases h : c.toNat ≥ 65 ∧ c.toNat ≤ 90
  · rw [if_pos h]
    have hv : (c.toNat + 32).isValidChar := Or.inl (by omega)
    rw [toNat_ofNat_valid _ hv]
    apply Bool.eq_false_iff.mpr
    intro hTrue
    rw [Bool.and_eq_true, decide_eq_true_eq, decide_eq_true_eq] at hTrue
    omega
  · rw [if_neg h]
    apply Bool.eq_false_iff.mpr
    intro hTrue
    rw [Bool.and_eq_true, decide_eq_true_eq, decide_eq_true_eq] at hTrue
    omega

theorem isPySpace_pyToLower (c : Char) :
    isPySpace (pyToLower c) = isPySpace c := by
  unfold pyToLower Char.toLower
  by_cases h : c.toNat ≥ 65 ∧ c.toNat ≤ 90
  · rw [if_pos h]
    have hv : (c.toNat + 32).isValidChar := Or.inl (by omega)
    have h1 : isPySpace (Char.ofNat (c.toNat + 32)) = false := by
      unfold isPySpace
      rw [toNat_ofNat_valid _ hv]
      apply Bool.eq_false_iff.mpr
      intro hTrue
      simp only [Bool.or_eq_true, decide_eq_true_eq] at hTrue
      omega
    have h2 : isPySpace c = false := by
      unfold isPySpace
      apply Bool.eq_false_iff.mpr
      intro hTrue
      simp only [Bool.or_eq_true, decide_eq_true_eq] at hTrue
      omega
    rw [h1, h2]
  · rw [if_neg h]

/-! ## List lemmas for stripping and prefix removal (C5, C8) -/

theorem dropWhile_cons_false {α : Type} (p : α → Bool) :
    ∀ (l : List α) (c : α) (t : List α),
      l.dropWhile p = c :: t → p c = false := by
  intro l
  induction l with
  | nil => intro c t h; simp [List.dropWhile] at h
  | cons a as ih =>
    intro c t h
    by_cases hp : p a = true
    · rw [List.dropWhile_cons_of_pos hp] at h
      exact ih c t h
    · rw [List.dropWhile_cons_of_neg hp] at h
      injection h with h1 h2
      rw [← h1]
      exact Bool.eq_false_iff.mpr hp

theorem dropWhile_head?_false {α : Type} (p : α → Bool) (l : List α) (c : α)
    (h : (l.dropWhile p).head? = some c) : p c = false := by
  cases hd : l.dropWhile p with
  | nil => rw [hd] at h; exact absurd h (by simp)
  | cons x t =>
    rw [hd] at h
    simp only [List.head?_cons, Option.some.injEq] at h
    rw [← h]
    exact dropWhile_cons_false p l x t hd

theorem dropWhile_all_iff {α : Type} (p : α → Bool) (l : List α) :
    (∀ c ∈ l.dropWhile p, p c = true) ↔ (∀ c ∈ l, p c = true) := by
  constructor
  · intro h c hc
    rw [← List.takeWhile_append_dropWhile (p := p) (l := l)] at hc
    rcases List.mem_append.mp hc with h1 | h2
    · exact List.mem_takeWhile_imp h1
    · exact h c h2
  · intro h c hc
    exact h c ((List.dropWhile_sublist p).subset hc)

theorem pyStrip_eq_nil_iff (l : List Char) :
    pyStrip l = [] ↔ ∀ c ∈ l, isPySpace c = true := by
  unfold pyStrip dropEndWs
  rw [List.reverse_eq_nil_iff, List.dropWhile_eq_nil_iff]
  constructor
  · intro h c hc
    refine (dropWhile_all_iff isPySpace l).mp ?_ c hc
    intro c' hc'
    exact h c' (List.mem_reverse.mpr hc')
  · intro h c hc
    exact (dropWhile_all_iff isPySpace l).mpr h c (List.mem_reverse.mp hc)

theorem exists_append_dropWhile {α : Type} (p : α → Bool) (l : List α) :
    ∃ s, s ++ l.dropWhile p = l :=
  ⟨l.takeWhile p, List.takeWhile_append_dropWhile p l⟩

theorem dropEndWs_append (m : List Char) : ∃ r, dropEndWs m ++ r = m := by
  obtain ⟨s, hs⟩ := exists_append_dropWhile isPySpace m.reverse
  refine ⟨s.reverse, ?_⟩
  unfold dropEndWs
  calc (List.dropWhile isPySpace m.reverse).reverse ++ s.reverse
      = (s ++ List.dropWhile isPySpace m.reverse).reverse := by
        rw [List.reverse_append]
    _ = (m.reverse).reverse := by rw [hs]
    _ = m := List.reverse_reverse m

theorem pyStrip_head (l : List Char) (c : Char)
    (h : (pyStrip l).head? = some c) : isPySpace c = false := by
  obtain ⟨r, hr⟩ := dropEndWs_append (l.dropWhile isPySpace)
  have hm : (l.dropWhile isPySpace).head? = some c := by
    rw [← hr]
    unfold pyStrip at h
    cases hd : dropEndWs (l.dropWhile isPySpace) with
    | nil => rw [hd] at h; exact absurd h (by simp)
    | cons x t =>
      rw [hd] at h
      simpa using h
  exact dropWhile_head?_false _ _ _ hm

theorem pyStrip_getLast (l : List Char) (c : Char)
    (h : (pyStrip l).getLast? = some c) : isPySpace c = false := by
  unfold pyStrip dropEndWs at h
  rw [List.getLast?_reverse] at h
  exact dropWhile_head?_false _ _ _ h

theorem getLast?_append_some {α : Type} (s t : List α) (c : α)
    (h : t.getLast? = some c) : (s ++ t).getLast? = some c := by
  have h1 : t.reverse.head? = some c := by rw [List.head?_reverse]; exact h
  cases ht : t.reverse with
  | nil => rw [ht] at h1; exact absurd h1 (by simp)
  | cons x r =>
    rw [ht] at h1
    simp only [List.head?_cons, Option.some.injEq] at h1
    rw [← List.head?_reverse, List.reverse_append, ht]
    simp [h1]

theorem subContains_suffix (l : List Char) : ∃ s, s ++ subContains l = l := by
  unfold subContains
  split
  · obtain ⟨s2, hs2⟩ := exists_append_dropWhile isPySpace (l.drop 8)
    exact ⟨l.take 8 ++ s2, by rw [List.append_assoc, hs2, List.take_append_drop]⟩
  · exact ⟨[], by simp⟩

theorem subIngredients_suffix (l : List Char) :
    ∃ s, s ++ subIngredients l = l := by
  unfold subIngredients
  split
  · obtain ⟨s2, hs2⟩ := exists_append_dropWhile isPySpace (l.drop 12)
    exact ⟨l.take 12 ++ s2, by rw [List.append_assoc, hs2, List.take_append_drop]⟩
  · exact ⟨[], by simp⟩

theorem subContains_head (l : List Char) (c : Char)
    (hl : ∀ c', l.head? = some c' → isPySpace c' = false)
    (h : (subContains l).head? = some c) : isPySpace c = false := by
  unfold subContains at h
  split at h
  · exact dropWhile_head?_false _ _ _ h
  · exact hl c h

theorem subIngredients_head (l : List Char) (c : Char)
    (hl : ∀ c', l.head? = some c' → isPySpace c' = false)
    (h : (subIngredients l).head? = some c) : isPySpace c = false := by
  unfold subIngredients at h
  split at h
  · exact dropWhile_head?_false _ _ _ h
  · exact hl c h

theorem cleanedToken_head (part : List Char) (c : Char)
    (h : (cleanedToken part).head? = some c) : isPySpace c = false := by
  unfold cleanedToken at h
  rw [List.head?_map] at h
  cases hps : (pyStrip part).head? with
  | none => rw [hps] at h; exact absurd h (by simp)
  | some c' =>
    rw [hps] at h
    simp only [Option.map_some', Option.some.injEq] at h
    rw [← h, isPySpace_pyToLower]
    exact pyStrip_head part c' hps

theorem cleanedToken_getLast (part : List Char) (c : Char)
    (h : (cleanedToken part).getLast? = some c) : isPySpace c = false := by
  unfold cleanedToken at h
  rw [List.getLast?_map] at h
  cases hps : (pyStrip part).getLast? with
  | none => rw [hps] at h; exact absurd h (by simp)
  | some c' =>
    rw [hps] at h
    simp only [Option.map_some', Option.some.injEq] at h
    rw [← h, isPySpace_pyToLower]
    exact pyStrip_getLast part c' hps

theorem cleanedToken_not_upper (part : List Char) (c : Char)
    (h : c ∈ cleanedToken part) : isUpperAscii c = false := by
  unfold cleanedToken at h
  obtain ⟨c', hc', rfl⟩ := List.mem_map.mp h
  exact pyToLower_not_upper c'

theorem splitOnPred_ne_nil (p : Char → Bool) : ∀ l, splitOnPred p l ≠ [] := by
  intro l
  induction l with
  | nil => simp [splitOnPred]
  | cons a as ih =>
    by_cases hp : p a = true
    · simp [splitOnPred, hp]
    · simp only [splitOnPred, if_neg hp]
      cases hsp : splitOnPred p as with
      | nil => exact absurd hsp ih
      | cons q qs => simp

theorem splitOnPred_parts_ws (l : List Char) :
    (∀ part ∈ splitOnPred isSep l, ∀ c ∈ part, isPySpace c = true) ↔
    (∀ c ∈ l, isSep c = true ∨ isPySpace c = true) := by
  induction l with
  | nil => simp [splitOnPred]
  | cons a as ih =>
    by_cases hp : isSep a = true
    · rw [show splitOnPred isSep (a :: as) = [] :: splitOnPred isSep as by
        simp [splitOnPred, hp]]
      constructor
      · intro h c hc
        rcases List.mem_cons.mp hc with rfl | hc2
        · exact Or.inl hp
        · exact ih.mp (fun part hpart => h part (List.mem_cons_of_mem _ hpart))
            c hc2
      · intro h part hpart
        rcases List.mem_cons.mp hpart with rfl | hpart2
        · intro c hc
          simp at hc
        · exact ih.mpr (fun c hc => h c (List.mem_cons_of_mem _ hc))
            part hpart2
    · obtain ⟨q, qs, hsp⟩ : ∃ q qs, splitOnPred isSep as = q :: qs := by
        cases hsp : splitOnPred isSep as with
        | nil => exact absurd hsp (splitOnPred_ne_nil isSep as)
        | cons q qs => exact ⟨q, qs, rfl⟩
      rw [show splitOnPred isSep (a :: as) = (a :: q) :: qs by
        simp [splitOnPred, hp, hsp]]
      rw [hsp] at ih
      constructor
      · intro h c hc
        rcases List.mem_cons.mp hc with rfl | hc2
        · exact Or.inr
            (h (c :: q) (List.mem_cons_self _ _) c (List.mem_cons_self _ _))
        · refine ih.mp ?_ c hc2
          intro part hpart
          rcases List.mem_cons.mp hpart with rfl | hpart2
          · intro c' hc'
            exact h (a :: part) (List.mem_cons_self _ _) c'
              (List.mem_cons_of_mem _ hc')
          · exact h part (List.mem_cons_of_mem _ hpart2)
      · intro h part hpart
        rcases List.mem_cons.mp hpart with rfl | hpart2
        · intro c hc
          rcases List.mem_cons.mp hc with rfl | hc2
          · rcases h c (List.mem_cons_self _ _) with hsep | hws
            · exact absurd hsep hp
            · exact hws
          · exact ih.mpr (fun c' hc' => h c' (List.mem_cons_of_mem _ hc'))
              q (List.mem_cons_self _ _) c hc2
        · exact ih.mpr (fun c' hc' => h c' (List.mem_cons_of_mem _ hc'))
            part (List.mem_cons_of_mem _ hpart2)

theorem ingredientToken_none_iff (part : List Char) :
    ingredientToken part = none ↔ pyStrip part = [] := by
  unfold ingredientToken
  by_cases h : cleanedToken part = []
  · rw [if_pos h]
    unfold cleanedToken at h
    rw [List.map_eq_nil_iff] at h
    simp [h]
  · rw [if_neg h]
    unfold cleanedToken at h
    rw [List.map_eq_nil_iff] at h
    simp [h]

/-- Claim C5 (amended): `parse_ingredients` is a total function into a list
of strings (never null), and it returns the empty list exactly when every
character of the input is a separator (comma or semicolon) or whitespace —
in particular the empty input.  (The original claim's "only separators" is
too narrow: whitespace-only tokens are also dropped.) -/
theorem c5_empty_iff (s : String) :
    parse_ingredients s = [] ↔
    ∀ c ∈ s.data, isSep c = true ∨ isPySpace c = true := by
  unfold parse_ingredients
  by_cases hs : s = ""
  · rw [if_pos hs, hs]
    simp
  · rw [if_neg hs]
    rw [List.map_eq_nil_iff, List.filterMap_eq_nil_iff]
    rw [← splitOnPred_parts_ws s.data]
    constructor
    · intro h part hpart
      exact (pyStrip_eq_nil_iff part).mp
        ((ingredientToken_none_iff part).mp (h part hpart))
    · intro h part hpart
      exact (ingredientToken_none_iff part).mpr
        ((pyStrip_eq_nil_iff part).mpr (h part hpart))

/-- Counterexample for C5 as stated: the single-space input `" "` is neither
empty nor made of separator characters, yet `parse_ingredients` returns the
empty sequence (the whitespace-only token strips to nothing and is
dropped). -/
theorem c5_counterexample :
    parse_ingredients " " = [] ∧
    ¬((" " : String) = "" ∨ ∀ c ∈ (" " : String).data, isSep c = true) :=
  ⟨by decide, by decide⟩

/-! ## C8: shape of the elements returned by `parse_ingredients` -/

theorem mem_parse_ingredients (s : String) (e : String)
    (he : e ∈ parse_ingredients s) :
    ∃ part, cleanedToken part ≠ [] ∧
      e.data = subIngredients (subContains (cleanedToken part)) := by
  unfold parse_ingredients at he
  by_cases hs : s = ""
  · rw [if_pos hs] at he
    simp at he
  · rw [if_neg hs] at he
    obtain ⟨l, hl, heq⟩ := List.mem_map.mp he
    obtain ⟨part, hpart, htok⟩ := List.mem_filterMap.mp hl
    unfold ingredientToken at htok
    by_cases hc : cleanedToken part = []
    · rw [if_pos hc] at htok
      exact absurd htok (by simp)
    · rw [if_neg hc] at htok
      injection htok with h1
      refine ⟨part, hc, ?_⟩
      rw [← heq, ← h1]

/-- Claim C8 (amended): every element of `parse_ingredients` is trimmed (no
leading or trailing whitespace) and lowercased (no ASCII uppercase letter
survives), and is obtained from a token that was non-empty after stripping;
however, an element can be the *empty* string when prefix removal consumes
the whole token, so "every element is non-empty" does not hold. -/
theorem c8_elements_trimmed_lower (s : String) (e : String)
    (he : e ∈ parse_ingredients s) :
    (∀ c, e.data.head? = some c → isPySpace c = false) ∧
    (∀ c, e.data.getLast? = some c → isPySpace c = false) ∧
    (∀ c ∈ e.data, isUpperAscii c = false) := by
  obtain ⟨part, hne, hdata⟩ := mem_parse_ingredients s e he
  obtain ⟨s1, hs1⟩ := subContains_suffix (cleanedToken part)
  obtain ⟨s2, hs2⟩ := subIngredients_suffix (subContains (cleanedToken part))
  refine ⟨?_, ?_, ?_⟩
  · intro c hc
    rw [hdata] at hc
    refine subIngredients_head _ c ?_ hc
    intro c' hc'
    exact subContains_head _ c' (fun c'' hc'' => cleanedToken_head part c'' hc'')
      hc'
  · intro c hc
    rw [hdata] at hc
    have h1 : (subContains (cleanedToken part)).getLast? = some c := by
      rw [← hs2]
      exact getLast?_append_some s2 _ c hc
    have h2 : (cleanedToken part).getLast? = some c := by
      rw [← hs1]
      exact getLast?_append_some s1 _ c h1
    exact cleanedToken_getLast part c h2
  · intro c hc
    rw [hdata] at hc
    have hc1 : c ∈ subContains (cleanedToken part) := by
      rw [← hs2]
      exact List.mem_append_right _ hc
    have hc2 : c ∈ cleanedToken part := by
      rw [← hs1]
      exact List.mem_append_right _ hc1
    exact cleanedToken_not_upper part c hc2

/-- Witness for C8 at a concrete input: both elements of
`parse_ingredients "Contains Milk, SUGAR "` satisfy the amended shape. -/
theorem c8_witness :
    ("milk" ∈ parse_ingredients "Contains Milk, SUGAR ") ∧
    (∀ c, ("milk" : String).data.head? = some c → isPySpace c = false) ∧
    (∀ c, ("milk" : String).data.getLast? = some c → isPySpace c = false) ∧
    (∀ c ∈ ("milk" : String).data, isUpperAscii c = false) :=
  ⟨by decide,
   (c8_elements_trimmed_lower "Contains Milk, SUGAR " "milk" (by decide)).1,
   (c8_elements_trimmed_lower "Contains Milk, SUGAR " "milk" (by decide)).2.1,
   (c8_elements_trimmed_lower "Contains Milk, SUGAR " "milk" (by decide)).2.2⟩

/-- Counterexample for C8 as stated: the input `"ingredients:"` produces the
single element `""` — the token is non-empty before prefix removal, so it is
kept, but the `ingredients:` prefix removal consumes all of it, leaving an
empty element in the result. -/
theorem c8_counterexample :
    parse_ingredients "ingredients:" = [""] ∧
    ¬(∀ e ∈ parse_ingredients "ingredients:", e ≠ "") :=
  ⟨by decide, by decide⟩

/-! ## Crawler lemmas (C2, C9) -/

theorem str_data_append : ∀ (a b : String), (a ++ b).data = a.data ++ b.data
  | ⟨_⟩, ⟨_⟩ => rfl

theorem nextUrlStr_ne_empty (base : String) (n : Int) :
    nextUrlStr base n ≠ "" := by
  intro h
  have hd : (nextUrlStr base n).data = [] := by rw [h]
  unfold nextUrlStr at hd
  simp only [str_data_append, List.append_eq_nil] at hd
  exact absurd hd.2 (by decide)

theorem getNextPageUrl_of_advances (snap : CategoryPage) (url : String)
    (h : snap.advances) : ∃ u, getNextPageUrl snap url = some u ∧ u ≠ "" := by
  obtain ⟨hload, hpag, hbtn, t, n, hind, hparse⟩ := h
  refine ⟨nextUrlStr (baseUrlOf url) (n + 1), ?_, nextUrlStr_ne_empty _ _⟩
  simp [getNextPageUrl, hpag, hbtn, hind, hparse]

theorem getNextPageUrl_of_unparseable (snap : CategoryPage) (url : String)
    (h : snap.stopsUnparseable) : getNextPageUrl snap url = none := by
  obtain ⟨hload, hpag, hbtn, t, hind, hparse⟩ := h
  simp [getNextPageUrl, hpag, hbtn, hind, hparse]

theorem crawlLoop_unparseable (pages : Nat → CategoryPage)
    (maxPages : Option Int) :
    ∀ (m fuel k : Nat) (url : String) (acc : List String),
      m + 1 ≤ fuel → url ≠ "" →
      (∀ j, j < m → (pages (k + j)).advances) →
      (pages (k + m)).stopsUnparseable →
      (∀ j, j ≤ m → capHit maxPages (k + j) = false) →
      crawlLoop pages maxPages fuel url k acc =
        some (acc ++ collectUrls pages k (m + 1)) := by
  intro m
  induction m with
  | zero =>
    intro fuel k url acc hfuel hurl hadv hstop hcap
    obtain ⟨f, rfl⟩ : ∃ f, fuel = f + 1 := ⟨fuel - 1, by omega⟩
    have hstop0 : (pages k).stopsUnparseable := by
      have := hstop
      rwa [Nat.add_zero] at this
    have hc0 : capHit maxPages k = false := by
      have := hcap 0 (Nat.le_refl 0)
      rwa [Nat.add_zero] at this
    unfold crawlLoop
    rw [if_neg hurl, hc0, hstop0.1, getNextPageUrl_of_unparseable _ url hstop0]
    show some (acc ++ (pages k).urls) = some (acc ++ collectUrls pages k (0 + 1))
    simp [collectUrls]
  | succ m ih =>
    intro fuel k url acc hfuel hurl hadv hstop hcap
    obtain ⟨f, rfl⟩ : ∃ f, fuel = f + 1 := ⟨fuel - 1, by omega⟩
    have hadv0 : (pages k).advances := by
      have := hadv 0 (by omega)
      rwa [Nat.add_zero] at this
    obtain ⟨u, hu, hune⟩ := getNextPageUrl_of_advances (pages k) url hadv0
    have hc0 : capHit maxPages k = false := by
      have := hcap 0 (by omega)
      rwa [Nat.add_zero] at this
    have hadv' : ∀ j, j < m → (pages (k + 1 + j)).advances := by
      intro j hj
      have := hadv (j + 1) (by omega)
      rwa [show k + (j + 1) = k + 1 + j by omega] at this
    have hstop' : (pages (k + 1 + m)).stopsUnparseable := by
      have := hstop
      rwa [show k + (m + 1) = k + 1 + m by omega] at this
    have hcap' : ∀ j, j ≤ m → capHit maxPages (k + 1 + j) = false := by
      intro j hj
      have := hcap (j + 1) (by omega)
      rwa [show k + (j + 1) = k + 1 + j by omega] at this
    have hrec := ih f (k + 1) u (acc ++ (pages k).urls) (by omega) hune
      hadv' hstop' hcap'
    unfold crawlLoop
    rw [if_neg hurl, hc0, hadv0.1, hu]
    show crawlLoop pages maxPages f u (k + 1) (acc ++ (pages k).urls) =
      some (acc ++ collectUrls pages k (m + 1 + 1))
    rw [hrec, List.append_assoc]
    rfl

/-- Claim C2 (amended): if page N is the first page of the crawl whose
current-page indicator fails to parse as an integer (pages 1..N-1 all
advance), and neither the page cap nor a load fault interferes, then
`scrape_category` stops at page N and returns the URLs gathered through page
N *inclusive* — page N's product links are collected before its pagination
indicator is examined, so they are part of the result (the original claim
said "through page N−1"). -/
theorem c2_crawl_stops_after_page_n (pages : Nat → CategoryPage)
    (maxPages : Option Int) (N fuel : Nat) (categoryUrl : String)
    (hN : 1 ≤ N) (hurl : categoryUrl ≠ "") (hfuel : N ≤ fuel)
    (hadv : ∀ k, 1 ≤ k → k < N → (pages k).advances)
    (hstop : (pages N).stopsUnparseable)
    (hcap : ∀ k, 1 ≤ k → k ≤ N → capHit maxPages k = false) :
    scrape_category pages maxPages fuel categoryUrl =
      some (collectUrls pages 1 N) := by
  unfold scrape_category
  have hadv' : ∀ j, j < N - 1 → (pages (1 + j)).advances := by
    intro j hj
    exact hadv (1 + j) (by omega) (by omega)
  have hstop' : (pages (1 + (N - 1))).stopsUnparseable := by
    rw [show 1 + (N - 1) = N by omega]
    exact hstop
  have hcap' : ∀ j, j ≤ N - 1 → capHit maxPages (1 + j) = false := by
    intro j hj
    exact hcap (1 + j) (by omega) (by omega)
  have h := crawlLoop_unparseable pages maxPages (N - 1) fuel 1 categoryUrl []
    (by omega) hurl hadv' hstop' hcap'
  rw [h, show N - 1 + 1 = N by omega]
  simp

/-- Witness for C2: the two-page crawl whose second page is unparseable
returns both pages' URLs. -/
theorem c2_witness :
    scrape_category pagesC2 none 10
      "https://www.traderjoes.com/home/products/category" =
      some ["https://www.traderjoes.com/p1",
            "https://www.traderjoes.com/p2"] := by
  have hadv : ∀ k, 1 ≤ k → k < 2 → (pagesC2 k).advances := by
    intro k h1 h2
    have hk : k = 1 := by omega
    subst hk
    exact ⟨by decide, by decide, by decide, "page1", 1, by decide, by decide⟩
  have hstop : (pagesC2 2).stopsUnparseable :=
    ⟨by decide, by decide, by decide, "?!", by decide, by decide⟩
  have hcap : ∀ k, 1 ≤ k → k ≤ 2 → capHit none k = false := by
    intro k h1 h2
    rfl
  have h := c2_crawl_stops_after_page_n pagesC2 none 2 10
    "https://www.traderjoes.com/home/products/category"
    (by omega) (by decide) (by omega) hadv hstop hcap
  exact h.trans (by decide)

/-- Counterexample for C2 as stated: in the same two-page crawl, the claim
predicts only page 1's URLs (`collectUrls pagesC2 1 1`), but the crawl
returns page 2's URL as well. -/
theorem c2_counterexample :
    scrape_category pagesC2 none 10
      "https://www.traderjoes.com/home/products/category" =
      some ["https://www.traderjoes.com/p1",
            "https://www.traderjoes.com/p2"] ∧
    collectUrls pagesC2 1 1 = ["https://www.traderjoes.com/p1"] ∧
    (["https://www.traderjoes.com/p1", "https://www.traderjoes.com/p2"] :
      List String) ≠ ["https://www.traderjoes.com/p1"] :=
  ⟨by decide, by decide, by decide⟩

theorem crawlLoop_cap_zero (pages : Nat → CategoryPage) :
    ∀ (fuel : Nat) (url : String) (k : Nat) (acc : List String),
      crawlLoop pages (some 0) fuel url k acc =
        crawlLoop pages none fuel url k acc := by
  intro fuel
  induction fuel with
  | zero => intro url k acc; rfl
  | succ f ih =>
    intro url k acc
    cases hg : getNextPageUrl (pages k) url with
    | none => simp [crawlLoop, capHit, hg]
    | some nurl => simp [crawlLoop, capHit, hg, ih]

/-- Claim C9: a `max_pages` value of 0 is falsy in the cap check
`if self.max_pages and current_page > self.max_pages`, so a cap of 0 crawls
exactly like no cap at all — it does not stop immediately: with cap 0 the
one-page category still yields its page's URL rather than an empty crawl. -/
theorem c9_cap_zero_means_no_cap :
    (∀ (pages : Nat → CategoryPage) (fuel : Nat) (url : String),
      scrape_category pages (some 0) fuel url =
        scrape_category pages none fuel url) ∧
    scrape_category pagesOne (some 0) 3
      "https://www.traderjoes.com/home/products/category" =
      some ["https://www.traderjoes.com/a"] :=
  ⟨fun pages fuel url => crawlLoop_cap_zero pages fuel url 1 [],
   by decide⟩

/-! ## C3: dedup short-circuit of the `/scrape` endpoint -/

/-- Claim C3 evidence (code bug): the store really holds a product for
`tjUrl`, yet the no-refresh call yields an HTTP 500 — the handler builds
`ScrapeResponse(job_id=None, ..., estimated_completion=datetime.now())`,
`job_id` is a required `str` field (and the `datetime` also fails the
`Optional[str]` field), and the resulting `ValidationError` is rewrapped by
the handler's `except Exception` — while correctly creating no job.  With
`force_refresh=true` a new pending job is created and persisted regardless
of the existing product, exactly as the claim states; the response of that
call is then *also* an HTTP 500, because its constructor passes a
`datetime` to `estimated_completion: Optional[str]`, but the job is already
stored when that constructor raises. -/
theorem c3_dedup_validation_bug :
    get_product_by_url storeWithProd tjUrl = some existingProd ∧
    (scrape_product storeWithProd reqNoRefresh "job-1" "tA" "tB").1.code? =
      some 500 ∧
    (scrape_product storeWithProd reqNoRefresh "job-1" "tA" "tB").2.jobs =
      [] ∧
    (scrape_product storeWithProd reqRefresh "job-1" "tA" "tB").1.code? =
      some 500 ∧
    (scrape_product storeWithProd reqRefresh "job-1" "tA" "tB").2.jobs =
      [("job-1", freshJob "job-1" tjUrl "tA")] ∧
    (freshJob "job-1" tjUrl "tA").status = "pending" :=
  ⟨by decide, by decide, by decide, by decide, by decide, rfl⟩

/-! ## C10: the URL→product index key -/

/-- Claim C10: the index key is the SHA-256 hex digest of the exact raw URL
string (the `generate_url_hash` function is deterministic by construction),
so after storing a product into an empty store, `get_product_by_url u'`
finds it exactly when `u'` hashes to the same key as the stored URL — in
particular for the character-for-character identical string — while textual
variants of the same address (trailing slash, different case) produce
different keys and therefore distinct index entries. -/
theorem c10_url_hash_index :
    (∀ (p : ProductData) (u' nowIso : String),
      (get_product_by_url (store_product FirebaseState.empty p nowIso) u' =
        some p ↔
       generate_url_hash u' = generate_url_hash p.url)) ∧
    generate_url_hash "https://www.traderjoes.com/home/products/pdp/x" ≠
      generate_url_hash "https://www.traderjoes.com/home/products/pdp/x/" ∧
    generate_url_hash "https://www.traderjoes.com/home/products/pdp/x" ≠
      generate_url_hash "HTTPS://WWW.TRADERJOES.COM/HOME/PRODUCTS/PDP/X" := by
  refine ⟨?_, by decide, by decide⟩
  intro p u' nowIso
  by_cases hbeq : generate_url_hash u' = generate_url_hash p.url
  · simp [get_product_by_url, store_product, FirebaseState.empty,
      get_product_by_id, List.lookup, hbeq]
  · have hb : (generate_url_hash u' == generate_url_hash p.url) = false :=
      beq_eq_false_iff_ne.mpr hbeq
    simp [get_product_by_url, store_product, FirebaseState.empty,
      get_product_by_id, List.lookup, hb, hbeq]
